import Mathlib

/-!
Verification of the watch-scheduling adapter in `src/apiWatch.ts` of vue-mp.

The adapter (`doWatch` and its public wrappers `watchEffect`, `watchPostEffect`,
`watchSyncEffect`, `watch`) normalizes a watch configuration into the options
object handed to the dependency engine (`baseWatch`): an error-routing `call`
function, a flush-mode-dependent `scheduler`, and an `augmentJob` hook that
marks the scheduler job with recursion/ordering flags.

The embedding below mirrors the control flow of `doWatch` directly.  The
collaborators imported from files outside `src/` (the job scheduler's
`queueJob`/`queuePostCb`, the `SchedulerJobFlags` bit constants,
`callWithAsyncErrorHandling`, `warn`, `currentInstance`) are modelled from the
spec at their interface boundary: queue submissions and synchronous job runs
are recorded in an explicit scheduler-state trace, and error-handled calls are
recorded as first-class values.
-/

namespace VueMp

/-- Flush timing modes: the `'pre' | 'post' | 'sync'` union of `WatchEffectOptions.flush`. -/
inductive Flush where
  | pre
  | post
  | sync
deriving DecidableEq, Repr

/-- Value of the `deep` option: `boolean | number`. -/
inductive DeepOpt where
  | bool (b : Bool)
  | num (n : Nat)
deriving DecidableEq, Repr

/-- Caller-supplied options (`WatchOptions` in apiWatch.ts).  A `none` field is an
absent (undefined) property.  The debugger hooks `onTrack`/`onTrigger` of
`DebuggerOptions` are abstracted as opaque identifiers: the adapter never calls
them, it only spreads them through. -/
structure WatchOptions where
  immediate : Option Bool := none
  deep : Option DeepOpt := none
  flush : Option Flush := none
  once : Option Bool := none
  onTrack : Option Nat := none
  onTrigger : Option Nat := none
deriving DecidableEq, Repr

/-- Host component instance (`currentInstance` from shared/instance): the adapter
only reads its identity and its `uid` ordering key. -/
structure Instance where
  uid : Nat
deriving DecidableEq, Repr

/-- Modelled from the spec: the `SchedulerJobFlags` bit constants live in
`src/vue/scheduler`, which is not under `src/`.  The spec only requires a bitset
with (at least) distinct `ALLOW_RECURSE` and `PRE` bits; we fix `PRE` to bit 1
and `ALLOW_RECURSE` to bit 2. -/
def SchedulerJobFlags.PRE : Nat := 2

/-- Modelled from the spec: the `ALLOW_RECURSE` scheduler-job flag bit (bit 2).
See `SchedulerJobFlags.PRE`. -/
def SchedulerJobFlags.ALLOW_RECURSE : Nat := 4

/-- The scheduler job record handed to `augmentJob` and to the scheduler.
`flags` is the flag bitset, `id` the ordering key, `i` the owning instance.
`payload` stands for every other field of the job record (its closure state,
queue bookkeeping, ...), which the adapter must not touch. -/
structure SchedulerJob where
  flags : Nat := 0
  id : Option Nat := none
  i : Option Instance := none
  payload : Nat := 0
deriving DecidableEq, Repr

/-- A job carries a flag when the corresponding bit of its `flags` bitset is
set (the `job.flags & flag` test of the scheduler). -/
def SchedulerJob.hasFlag (j : SchedulerJob) (flag : Nat) : Prop :=
  j.flags &&& flag ≠ 0

instance (j : SchedulerJob) (flag : Nat) : Decidable (j.hasFlag flag) := by
  unfold SchedulerJob.hasFlag
  infer_instance

/-- State of the external job scheduler, as observable through its interface:
the trace of synchronously executed jobs and the two submission queues. -/
structure SchedState where
  ran : List SchedulerJob := []
  preQueue : List SchedulerJob := []
  postQueue : List SchedulerJob := []
deriving DecidableEq, Repr

/-- Modelled from the spec: `queueJob` (src/vue/scheduler, not under `src/`) is
the Job Scheduler's pre-flush submission entry point; submitting records the job
in the pre-flush queue. -/
def queueJob (j : SchedulerJob) (s : SchedState) : SchedState :=
  { s with preQueue := s.preQueue ++ [j] }

/-- Modelled from the spec: `queuePostCb` (src/vue/scheduler, not under `src/`)
is the Job Scheduler's post-flush submission entry point.  Its extra `Bool`
parameter mirrors the scheduler call signature `(job, isFirstRun)`; like the
JavaScript function, it ignores the extra argument. -/
def queuePostCb (j : SchedulerJob) (_isFirstRun : Bool) (s : SchedState) : SchedState :=
  { s with postQueue := s.postQueue ++ [j] }

/-- Direct invocation `job()` in the source: runs the job synchronously,
touching no queue. -/
def invokeJob (j : SchedulerJob) (s : SchedState) : SchedState :=
  { s with ran := s.ran ++ [j] }

/-- The scheduler closure that `doWatch` installs for `pre`-flush watches:
on the first run invoke the job synchronously, afterwards submit it to the
pre-flush queue. -/
def preScheduler (job : SchedulerJob) (isFirstRun : Bool) (s : SchedState) : SchedState :=
  if isFirstRun then invokeJob job s else queueJob job s

/-- Modelled from the spec: one invocation of the error-handling collaborator
`callWithAsyncErrorHandling(fn, instance, type, args)` (src/vue/errorHandling,
not under `src/`).  It invokes `fn`, catches any failure, attributes it to the
given instance and type tag, and does not rethrow.  The callable and its
arguments are abstracted as opaque identifiers. -/
structure ErrorHandledCall where
  fn : Nat
  inst : Option Instance
  ty : String
  args : List Nat
deriving DecidableEq, Repr

/-- The normalized options object `doWatch` builds and passes to `baseWatch`.
The first six fields are the `...options` spread; `onWarn` records whether the
dev-only warning hook was installed; `call`, `scheduler` and `augmentJob` are
the adapter-installed hooks.  A `scheduler` of `none` is no scheduler override:
the dependency engine then runs the reaction synchronously at invalidation. -/
structure BaseWatchOptions where
  immediate : Option Bool
  deep : Option DeepOpt
  flush : Option Flush
  once : Option Bool
  onTrack : Option Nat
  onTrigger : Option Nat
  onWarn : Bool
  call : Nat → String → List Nat → ErrorHandledCall
  scheduler : Option (SchedulerJob → Bool → SchedState → SchedState)
  augmentJob : SchedulerJob → SchedulerJob

/-- Warning text for `immediate` without a callback (the dev diagnostic strings,
abbreviated to their option name). -/
def immediateWarning : String := "watch immediate option is only respected with a callback"

/-- Warning text for `deep` without a callback. -/
def deepWarning : String := "watch deep option is only respected with a callback"

/-- Warning text for `once` without a callback. -/
def onceWarning : String := "watch once option is only respected with a callback"

/-- The `augmentJob` hook installed by `doWatch`, parametrised by the captured
`cb` presence, the derived `isPre` flag and the captured instance:

    if (cb) job.flags |= ALLOW_RECURSE
    if (isPre) { job.flags |= PRE; if (instance) { job.id = instance.uid; job.i = instance } }
-/
def augmentJobFor (cb : Bool) (isPre : Bool) (inst : Option Instance)
    (job : SchedulerJob) : SchedulerJob :=
  let job1 :=
    if cb then { job with flags := job.flags ||| SchedulerJobFlags.ALLOW_RECURSE } else job
  if isPre then
    let job2 := { job1 with flags := job1.flags ||| SchedulerJobFlags.PRE }
    match inst with
    | some i => { job2 with id := some i.uid, i := some i }
    | none => job2
  else job1

/-- Result of a `doWatch` call: the dev warnings it emitted, the normalized
options object it handed to `baseWatch`, and the fact that it reached the
`baseWatch` registration and returned its handle (`registered`). -/
structure DoWatchResult where
  warnings : List String
  opts : BaseWatchOptions
  registered : Bool

/-- The scheduler-derivation if-chain of `doWatch` (lines 179-192), as a
function of the `flush` option: it yields the installed scheduler override
(`none` = leave `baseWatchOptions.scheduler` undefined) together with the
`isPre` flag captured by `augmentJob`:

    let isPre = false
    if (flush === 'post') scheduler = queuePostCb
    else if (flush !== 'sync') { isPre = true; scheduler = (job, isFirstRun) => ... }
-/
def flushScheduler (flush : Option Flush) :
    Option (SchedulerJob → Bool → SchedState → SchedState) × Bool :=
  if flush = some Flush.post then
    (some queuePostCb, false)
  else if flush ≠ some Flush.sync then
    (some preScheduler, true)
  else
    (none, false)

/-- Shallow embedding of `doWatch(source, cb, options)`.  The watched source
itself is irrelevant to the adapter logic and is omitted; `dev` is the `__DEV__`
build flag, `cb` records whether a callback was supplied (`cb` non-null), and
`inst` is the ambient `currentInstance` at registration time.  An absent
`options` argument defaults to the empty object. -/
def doWatch (dev : Bool) (cb : Bool) (options : Option WatchOptions)
    (inst : Option Instance) : DoWatchResult :=
  let o := options.getD {}
  let warnings :=
    if dev && !cb then
      (if o.immediate.isSome then [immediateWarning] else []) ++
      (if o.deep.isSome then [deepWarning] else []) ++
      (if o.once.isSome then [onceWarning] else [])
    else []
  let sched := flushScheduler o.flush
  { warnings := warnings
    opts :=
      { immediate := o.immediate
        deep := o.deep
        flush := o.flush
        once := o.once
        onTrack := o.onTrack
        onTrigger := o.onTrigger
        onWarn := dev
        call := fun fn ty args => { fn := fn, inst := inst, ty := ty, args := args }
        scheduler := sched.1
        augmentJob := augmentJobFor cb sched.2 inst }
    registered := true }

/-- `watchEffect(effect, options?)`: `doWatch(effect, null, options)`. -/
def watchEffect (dev : Bool) (options : Option WatchOptions)
    (inst : Option Instance) : DoWatchResult :=
  doWatch dev false options inst

/-- `watchPostEffect(effect, options?)`: registers with no callback and
`__DEV__ ? { ...options, flush: 'post' } : { flush: 'post' }`. -/
def watchPostEffect (dev : Bool) (options : Option WatchOptions)
    (inst : Option Instance) : DoWatchResult :=
  doWatch dev false
    (some (if dev then { options.getD {} with flush := some Flush.post }
           else { flush := some Flush.post }))
    inst

/-- `watchSyncEffect(effect, options?)`: registers with no callback and
`__DEV__ ? { ...options, flush: 'sync' } : { flush: 'sync' }`. -/
def watchSyncEffect (dev : Bool) (options : Option WatchOptions)
    (inst : Option Instance) : DoWatchResult :=
  doWatch dev false
    (some (if dev then { options.getD {} with flush := some Flush.sync }
           else { flush := some Flush.sync }))
    inst

/-! ## Helper lemmas -/

/-- Projection of the installed scheduler out of a `doWatch` result. -/
theorem doWatch_scheduler_eq (dev cb : Bool) (options : Option WatchOptions)
    (inst : Option Instance) :
    (doWatch dev cb options inst).opts.scheduler =
      (flushScheduler (options.getD {}).flush).1 := rfl

/-- Projection of the installed `augmentJob` hook out of a `doWatch` result. -/
theorem doWatch_augmentJob_eq (dev cb : Bool) (options : Option WatchOptions)
    (inst : Option Instance) :
    (doWatch dev cb options inst).opts.augmentJob =
      augmentJobFor cb (flushScheduler (options.getD {}).flush).2 inst := rfl

/-- With `flush: 'pre'` or `flush` omitted, `doWatch` installs the pre-flush
scheduler and derives `isPre = true`. -/
theorem flushScheduler_pre_or_none (f : Option Flush)
    (h : f = some Flush.pre ∨ f = none) :
    flushScheduler f = (some preScheduler, true) := by
  rcases h with h | h <;> subst h <;> rfl

/-- Membership of a power-of-two flag in the bitset is the corresponding bit. -/
theorem hasFlag_iff_testBit (j : SchedulerJob) (i : Nat) :
    j.hasFlag (2 ^ i) ↔ j.flags.testBit i = true := by
  show j.flags &&& 2 ^ i ≠ 0 ↔ _
  rw [Nat.and_two_pow]
  cases h : j.flags.testBit i <;> simp [h, Nat.pos_iff_ne_zero]

/-- `ALLOW_RECURSE` membership is bit 2. -/
theorem hasFlag_allow_recurse_iff (j : SchedulerJob) :
    j.hasFlag SchedulerJobFlags.ALLOW_RECURSE ↔ j.flags.testBit 2 = true :=
  hasFlag_iff_testBit j 2

/-- `PRE` membership is bit 1. -/
theorem hasFlag_pre_iff (j : SchedulerJob) :
    j.hasFlag SchedulerJobFlags.PRE ↔ j.flags.testBit 1 = true :=
  hasFlag_iff_testBit j 1

/-- `augmentJobFor` only ORs a (configuration-determined) mask into the flag
bitset. -/
theorem augmentJobFor_flags (cb isPre : Bool) (inst : Option Instance)
    (job : SchedulerJob) :
    (augmentJobFor cb isPre inst job).flags =
      job.flags ||| ((if cb then SchedulerJobFlags.ALLOW_RECURSE else 0) |||
                     (if isPre then SchedulerJobFlags.PRE else 0)) := by
  cases cb <;> cases isPre <;> cases inst <;>
    simp [augmentJobFor, SchedulerJobFlags.ALLOW_RECURSE, SchedulerJobFlags.PRE,
      Nat.lor_assoc]

/-- `augmentJobFor` leaves every job field other than `flags`, `id`, `i`
untouched. -/
theorem augmentJobFor_payload (cb isPre : Bool) (inst : Option Instance)
    (job : SchedulerJob) :
    (augmentJobFor cb isPre inst job).payload = job.payload := by
  cases cb <;> cases isPre <;> cases inst <;> rfl

/-- `augmentJobFor` either leaves `id`/`i` unchanged or assigns the captured
instance's key and identity. -/
theorem augmentJobFor_id_i (cb isPre : Bool) (inst : Option Instance)
    (job : SchedulerJob) :
    ((augmentJobFor cb isPre inst job).id = job.id
      ∧ (augmentJobFor cb isPre inst job).i = job.i)
    ∨ (∃ i, inst = some i
        ∧ (augmentJobFor cb isPre inst job).id = some i.uid
        ∧ (augmentJobFor cb isPre inst job).i = some i) := by
  cases cb <;> cases isPre <;> cases inst <;>
    first
      | exact Or.inl ⟨rfl, rfl⟩
      | exact Or.inr ⟨_, rfl, rfl, rfl⟩

/-! ## Concrete sample values for witnesses -/

/-- A sample job with an unrelated flag bit (bit 0) already set. -/
def sampleJob : SchedulerJob := { flags := 1, payload := 9 }

/-- A sample scheduler state. -/
def sampleState : SchedState := {}

/-- Sample options selecting `flush: 'pre'`. -/
def samplePreOptions : WatchOptions := { flush := some Flush.pre }

/-- Sample options selecting `flush: 'post'`. -/
def samplePostOptions : WatchOptions := { flush := some Flush.post }

/-- Sample options selecting `flush: 'sync'`. -/
def sampleSyncOptions : WatchOptions := { flush := some Flush.sync }

/-- A sample host instance. -/
def sampleInst : Instance := ⟨3⟩

/-! ## Bit-literal facts about the two flag constants -/

/-- Bit 2 of `ALLOW_RECURSE` (= 4). -/
theorem testBit_four_two : Nat.testBit 4 2 = true := by decide

/-- Bit 2 of `PRE` (= 2). -/
theorem testBit_two_two : Nat.testBit 2 2 = false := by decide

/-- Bit 1 of `ALLOW_RECURSE` (= 4). -/
theorem testBit_four_one : Nat.testBit 4 1 = false := by decide

/-- Bit 1 of `PRE` (= 2). -/
theorem testBit_two_one : Nat.testBit 2 1 = true := by decide

/-- Bit 1 of the combined mask `ALLOW_RECURSE ||| PRE` (= 6). -/
theorem testBit_six_one : Nat.testBit 6 1 = true := by decide

/-- Bit 2 of the combined mask `ALLOW_RECURSE ||| PRE` (= 6). -/
theorem testBit_six_two : Nat.testBit 6 2 = true := by decide

/-! ## Flag behaviour of the augment hook -/

/-- `augmentJobFor` leaves the `ALLOW_RECURSE` bit set exactly when a callback
was supplied or the bit was already set. -/
theorem augmentJobFor_hasFlag_allow_recurse (cb isPre : Bool) (inst : Option Instance)
    (job : SchedulerJob) :
    ((augmentJobFor cb isPre inst job).hasFlag SchedulerJobFlags.ALLOW_RECURSE
      ↔ (cb = true ∨ job.hasFlag SchedulerJobFlags.ALLOW_RECURSE)) := by
  rw [hasFlag_allow_recurse_iff, hasFlag_allow_recurse_iff, augmentJobFor_flags]
  cases cb <;> cases isPre <;>
    simp [Nat.testBit_lor, SchedulerJobFlags.ALLOW_RECURSE, SchedulerJobFlags.PRE,
      testBit_four_two, testBit_two_two, testBit_six_two, Nat.zero_testBit]

/-- In the effect-only case (`cb = false`), `augmentJobFor` never adds the
`ALLOW_RECURSE` bit. -/
theorem augmentJobFor_effect_no_recurse (isPre : Bool) (inst : Option Instance)
    (job : SchedulerJob) :
    ((augmentJobFor false isPre inst job).hasFlag SchedulerJobFlags.ALLOW_RECURSE
      ↔ job.hasFlag SchedulerJobFlags.ALLOW_RECURSE) := by
  rw [augmentJobFor_hasFlag_allow_recurse]
  simp

/-- With `isPre = true`, `augmentJobFor` sets the `PRE` bit. -/
theorem augmentJobFor_pre_hasFlag (cb : Bool) (inst : Option Instance)
    (job : SchedulerJob) :
    (augmentJobFor cb true inst job).hasFlag SchedulerJobFlags.PRE := by
  rw [hasFlag_pre_iff, augmentJobFor_flags]
  cases cb <;>
    simp [Nat.testBit_lor, SchedulerJobFlags.ALLOW_RECURSE, SchedulerJobFlags.PRE,
      testBit_four_one, testBit_two_one, testBit_six_one, Nat.zero_testBit]

/-- With `isPre = false`, `augmentJobFor` leaves the `PRE` bit and the
`id`/`i` fields untouched. -/
theorem augmentJobFor_not_pre (cb : Bool) (inst : Option Instance)
    (job : SchedulerJob) :
    (((augmentJobFor cb false inst job).hasFlag SchedulerJobFlags.PRE
        ↔ job.hasFlag SchedulerJobFlags.PRE)
      ∧ (augmentJobFor cb false inst job).id = job.id
      ∧ (augmentJobFor cb false inst job).i = job.i) := by
  refine ⟨?_, ?_, ?_⟩
  · rw [hasFlag_pre_iff, hasFlag_pre_iff, augmentJobFor_flags]
    cases cb <;>
      simp [Nat.testBit_lor, SchedulerJobFlags.ALLOW_RECURSE, SchedulerJobFlags.PRE,
        testBit_four_one, Nat.zero_testBit]
  · cases cb <;> rfl
  · cases cb <;> rfl

/-- With `isPre = true` and a captured instance, `augmentJobFor` records the
instance key and identity on the job. -/
theorem augmentJobFor_pre_id_i_some (cb : Bool) (i : Instance) (job : SchedulerJob) :
    (augmentJobFor cb true (some i) job).id = some i.uid
    ∧ (augmentJobFor cb true (some i) job).i = some i := by
  cases cb <;> exact ⟨rfl, rfl⟩

/-- With `isPre = true` and no captured instance, `augmentJobFor` leaves
`id`/`i` untouched. -/
theorem augmentJobFor_pre_id_i_none (cb : Bool) (job : SchedulerJob) :
    (augmentJobFor cb true none job).id = job.id
    ∧ (augmentJobFor cb true none job).i = job.i := by
  cases cb <;> exact ⟨rfl, rfl⟩

/-! ## Claim theorems -/

/-- Claim C1: for a registration with `flush: 'pre'` or `flush` omitted, the
scheduler installed by `doWatch` is the pre-flush scheduler: invoked with
`isFirstRun = true` it runs the job synchronously exactly once and submits it
to no queue; invoked with `isFirstRun = false` it submits the job to the
pre-flush queue exactly once and does not run it synchronously. -/
theorem doWatch_pre_flush_first_run_sync_then_queue
    (dev cb : Bool) (o : WatchOptions) (inst : Option Instance)
    (job : SchedulerJob) (s : SchedState)
    (h : o.flush = some Flush.pre ∨ o.flush = none) :
    (doWatch dev cb (some o) inst).opts.scheduler = some preScheduler
    ∧ preScheduler job true s = { s with ran := s.ran ++ [job] }
    ∧ preScheduler job false s = { s with preQueue := s.preQueue ++ [job] } := by
  refine ⟨?_, rfl, rfl⟩
  rw [doWatch_scheduler_eq, show ((some o).getD {} : WatchOptions) = o from rfl,
    flushScheduler_pre_or_none o.flush h]

/-- Witness for C1: the concrete registration `flush: 'pre'` with a concrete
job and the empty scheduler state. -/
theorem doWatch_pre_flush_first_run_sync_then_queue_witness :
    (doWatch true true (some samplePreOptions) (some sampleInst)).opts.scheduler
      = some preScheduler
    ∧ preScheduler sampleJob true sampleState
      = { sampleState with ran := sampleState.ran ++ [sampleJob] }
    ∧ preScheduler sampleJob false sampleState
      = { sampleState with preQueue := sampleState.preQueue ++ [sampleJob] } :=
  doWatch_pre_flush_first_run_sync_then_queue true true samplePreOptions
    (some sampleInst) sampleJob sampleState (Or.inl rfl)

/-- Claim C2: the `augmentJob` hook installed by `doWatch` leaves the
`ALLOW_RECURSE` flag set exactly when a callback was supplied (or the flag was
already on the job); the effect-only entry points (`watchEffect`,
`watchPostEffect`, `watchSyncEffect`, which pass a null callback) never add the
flag. -/
theorem augmentJob_allow_recurse_iff_callback
    (dev cb : Bool) (options : Option WatchOptions) (inst : Option Instance)
    (job : SchedulerJob) :
    (((doWatch dev cb options inst).opts.augmentJob job).hasFlag
        SchedulerJobFlags.ALLOW_RECURSE
      ↔ (cb = true ∨ job.hasFlag SchedulerJobFlags.ALLOW_RECURSE))
    ∧ (((watchEffect dev options inst).opts.augmentJob job).hasFlag
        SchedulerJobFlags.ALLOW_RECURSE ↔ job.hasFlag SchedulerJobFlags.ALLOW_RECURSE)
    ∧ (((watchPostEffect dev options inst).opts.augmentJob job).hasFlag
        SchedulerJobFlags.ALLOW_RECURSE ↔ job.hasFlag SchedulerJobFlags.ALLOW_RECURSE)
    ∧ (((watchSyncEffect dev options inst).opts.augmentJob job).hasFlag
        SchedulerJobFlags.ALLOW_RECURSE ↔ job.hasFlag SchedulerJobFlags.ALLOW_RECURSE) :=
  ⟨augmentJobFor_hasFlag_allow_recurse cb _ inst job,
    augmentJobFor_effect_no_recurse _ inst job,
    augmentJobFor_effect_no_recurse _ inst job,
    augmentJobFor_effect_no_recurse _ inst job⟩

/-- Claim C3: for `flush: 'pre'` (or omitted), the `augmentJob` hook sets the
`PRE` flag; with a captured host instance it records `job.id = instance.uid`
and `job.i = instance`, and with no instance it leaves `id`/`i` untouched.
For `flush: 'post'` or `'sync'` the hook sets none of `PRE`, `id`, `i`. -/
theorem augmentJob_pre_flag_and_ordering_key
    (dev cb : Bool) (o : WatchOptions) (inst : Option Instance) (job : SchedulerJob) :
    ((o.flush = some Flush.pre ∨ o.flush = none) →
      (((doWatch dev cb (some o) inst).opts.augmentJob job).hasFlag SchedulerJobFlags.PRE
        ∧ (∀ i, inst = some i →
            ((doWatch dev cb (some o) inst).opts.augmentJob job).id = some i.uid
            ∧ ((doWatch dev cb (some o) inst).opts.augmentJob job).i = some i)
        ∧ (inst = none →
            ((doWatch dev cb (some o) inst).opts.augmentJob job).id = job.id
            ∧ ((doWatch dev cb (some o) inst).opts.augmentJob job).i = job.i)))
    ∧ ((o.flush = some Flush.post ∨ o.flush = some Flush.sync) →
      ((((doWatch dev cb (some o) inst).opts.augmentJob job).hasFlag SchedulerJobFlags.PRE
          ↔ job.hasFlag SchedulerJobFlags.PRE)
        ∧ ((doWatch dev cb (some o) inst).opts.augmentJob job).id = job.id
        ∧ ((doWatch dev cb (some o) inst).opts.augmentJob job).i = job.i)) := by
  constructor
  · intro h
    have e : (doWatch dev cb (some o) inst).opts.augmentJob = augmentJobFor cb true inst := by
      rw [doWatch_augmentJob_eq, show ((some o).getD {} : WatchOptions) = o from rfl,
        flushScheduler_pre_or_none o.flush h]
    rw [e]
    refine ⟨augmentJobFor_pre_hasFlag cb inst job, ?_, ?_⟩
    · intro i hi
      subst hi
      exact augmentJobFor_pre_id_i_some cb i job
    · intro hn
      subst hn
      exact augmentJobFor_pre_id_i_none cb job
  · intro h
    have e : (doWatch dev cb (some o) inst).opts.augmentJob = augmentJobFor cb false inst := by
      rcases h with h | h <;>
        rw [doWatch_augmentJob_eq, show ((some o).getD {} : WatchOptions) = o from rfl, h] <;>
        rfl
    rw [e]
    exact augmentJobFor_not_pre cb inst job

/-- Witness for C3: the concrete registration `flush: 'pre'` with a captured
instance records the `PRE` flag and the instance's key and identity. -/
theorem augmentJob_pre_flag_and_ordering_key_witness :
    ((doWatch true true (some samplePreOptions) (some sampleInst)).opts.augmentJob
        sampleJob).hasFlag SchedulerJobFlags.PRE
    ∧ ((doWatch true true (some samplePreOptions) (some sampleInst)).opts.augmentJob
        sampleJob).id = some sampleInst.uid
    ∧ ((doWatch true true (some samplePreOptions) (some sampleInst)).opts.augmentJob
        sampleJob).i = some sampleInst := by
  obtain ⟨h1, h2, _⟩ :=
    (augmentJob_pre_flag_and_ordering_key true true samplePreOptions (some sampleInst)
      sampleJob).1 (Or.inl rfl)
  exact ⟨h1, (h2 sampleInst rfl).1, (h2 sampleInst rfl).2⟩

/-- Claim C4: for `flush: 'sync'`, `doWatch` installs no scheduler override:
`baseWatchOptions.scheduler` stays undefined, so the dependency engine runs the
reaction synchronously at invalidation time. -/
theorem doWatch_sync_no_scheduler_override
    (dev cb : Bool) (o : WatchOptions) (inst : Option Instance)
    (h : o.flush = some Flush.sync) :
    (doWatch dev cb (some o) inst).opts.scheduler = none := by
  rw [doWatch_scheduler_eq, show ((some o).getD {} : WatchOptions) = o from rfl, h]
  rfl

/-- Witness for C4: the concrete registration `flush: 'sync'`. -/
theorem doWatch_sync_no_scheduler_override_witness :
    (doWatch true true (some sampleSyncOptions) (some sampleInst)).opts.scheduler = none :=
  doWatch_sync_no_scheduler_override true true sampleSyncOptions (some sampleInst) rfl

/-- Claim C5: omitting the `flush` option is equivalent to `flush: 'pre'`:
for any other options, build flag, callback presence and instance context, the
resulting scheduler and `augmentJob` hook coincide, and likewise when the whole
options argument is omitted. -/
theorem omitted_flush_equivalent_to_pre
    (dev cb : Bool) (o : WatchOptions) (inst : Option Instance) :
    ((doWatch dev cb (some { o with flush := none }) inst).opts.scheduler
      = (doWatch dev cb (some { o with flush := some Flush.pre }) inst).opts.scheduler)
    ∧ ((doWatch dev cb (some { o with flush := none }) inst).opts.augmentJob
      = (doWatch dev cb (some { o with flush := some Flush.pre }) inst).opts.augmentJob)
    ∧ ((doWatch dev cb none inst).opts.scheduler
      = (doWatch dev cb (some { flush := some Flush.pre }) inst).opts.scheduler)
    ∧ ((doWatch dev cb none inst).opts.augmentJob
      = (doWatch dev cb (some { flush := some Flush.pre }) inst).opts.augmentJob) :=
  ⟨rfl, rfl, rfl, rfl⟩

/-- Claim C6: in a dev build, an effect-only registration (`cb` null) with any
of `immediate`, `deep`, `once` supplied emits exactly one diagnostic per
supplied option, still registers the watch, and those options have no effect on
the installed scheduler, `augmentJob` hook or `call` function. -/
theorem effect_only_options_warned_and_ignored
    (o : WatchOptions) (inst : Option Instance) :
    ((doWatch true false (some o) inst).warnings.length =
      (if o.immediate.isSome then 1 else 0) + (if o.deep.isSome then 1 else 0)
        + (if o.once.isSome then 1 else 0))
    ∧ (doWatch true false (some o) inst).registered = true
    ∧ ((doWatch true false (some o) inst).opts.scheduler =
        (doWatch true false
          (some { o with immediate := none, deep := none, once := none }) inst).opts.scheduler)
    ∧ ((doWatch true false (some o) inst).opts.augmentJob =
        (doWatch true false
          (some { o with immediate := none, deep := none, once := none }) inst).opts.augmentJob)
    ∧ ((doWatch true false (some o) inst).opts.call =
        (doWatch true false
          (some { o with immediate := none, deep := none, once := none }) inst).opts.call) := by
  refine ⟨?_, rfl, rfl, rfl, rfl⟩
  rcases o with ⟨imm, dp, fl, onc, tra, trg⟩
  cases imm <;> cases dp <;> cases onc <;> simp [doWatch]

/-- Claim C7: every invocation of the installed `call` function routes through
`callWithAsyncErrorHandling` with the instance captured at registration time
and the caller-supplied type discriminator and arguments. -/
theorem call_routes_through_error_handling
    (dev cb : Bool) (options : Option WatchOptions) (inst : Option Instance)
    (fn : Nat) (ty : String) (args : List Nat) :
    (doWatch dev cb options inst).opts.call fn ty args =
      { fn := fn, inst := inst, ty := ty, args := args } := rfl

/-- Claim C8: for `flush: 'post'`, the installed scheduler is exactly the
post-flush submission entry point `queuePostCb`, unwrapped, and every
invocation (first run included) submits the job to the post-flush queue
exactly once. -/
theorem doWatch_post_scheduler_is_queuePostCb
    (dev cb : Bool) (o : WatchOptions) (inst : Option Instance)
    (job : SchedulerJob) (isFirstRun : Bool) (s : SchedState)
    (h : o.flush = some Flush.post) :
    (doWatch dev cb (some o) inst).opts.scheduler = some queuePostCb
    ∧ queuePostCb job isFirstRun s = { s with postQueue := s.postQueue ++ [job] } := by
  refine ⟨?_, rfl⟩
  rw [doWatch_scheduler_eq, show ((some o).getD {} : WatchOptions) = o from rfl, h]
  rfl

/-- Witness for C8: the concrete registration `flush: 'post'` with a concrete
job, both scheduler invocation modes collapsing to a post-queue submission. -/
theorem doWatch_post_scheduler_is_queuePostCb_witness :
    (doWatch true true (some samplePostOptions) (some sampleInst)).opts.scheduler
      = some queuePostCb
    ∧ queuePostCb sampleJob true sampleState
      = { sampleState with postQueue := sampleState.postQueue ++ [sampleJob] } :=
  doWatch_post_scheduler_is_queuePostCb true true samplePostOptions (some sampleInst)
    sampleJob true sampleState rfl

/-- Claim C9: the `augmentJob` hook only ORs bits into `job.flags` (so every
bit set before augmentation stays set) and, at most, assigns `job.id`/`job.i`
to the captured instance's key and identity; every other field of the job is
untouched. -/
theorem augmentJob_frame_property
    (dev cb : Bool) (options : Option WatchOptions) (inst : Option Instance)
    (job : SchedulerJob) (k : Nat) :
    (∃ m, ((doWatch dev cb options inst).opts.augmentJob job).flags = job.flags ||| m)
    ∧ (job.flags.testBit k = true →
        ((doWatch dev cb options inst).opts.augmentJob job).flags.testBit k = true)
    ∧ ((doWatch dev cb options inst).opts.augmentJob job).payload = job.payload
    ∧ ((((doWatch dev cb options inst).opts.augmentJob job).id = job.id
        ∧ ((doWatch dev cb options inst).opts.augmentJob job).i = job.i)
      ∨ (∃ i, inst = some i
          ∧ ((doWatch dev cb options inst).opts.augmentJob job).id = some i.uid
          ∧ ((doWatch dev cb options inst).opts.augmentJob job).i = some i)) := by
  rw [doWatch_augmentJob_eq]
  refine ⟨⟨_, augmentJobFor_flags cb _ inst job⟩, ?_,
    augmentJobFor_payload cb _ inst job, augmentJobFor_id_i cb _ inst job⟩
  intro hk
  rw [augmentJobFor_flags, Nat.testBit_lor, hk]
  rfl

/-- Witness for C9: a concrete pre-flush registration and a job with an
unrelated flag bit (bit 0) already set: the bit survives augmentation and the
payload field is untouched. -/
theorem augmentJob_frame_property_witness :
    (∃ m, ((doWatch true true (some samplePreOptions) (some sampleInst)).opts.augmentJob
        sampleJob).flags = sampleJob.flags ||| m)
    ∧ ((doWatch true true (some samplePreOptions) (some sampleInst)).opts.augmentJob
        sampleJob).flags.testBit 0 = true
    ∧ ((doWatch true true (some samplePreOptions) (some sampleInst)).opts.augmentJob
        sampleJob).payload = sampleJob.payload := by
  obtain ⟨h1, h2, h3, _⟩ :=
    augmentJob_frame_property true true (some samplePreOptions) (some sampleInst)
      sampleJob 0
  exact ⟨h1, h2 rfl, h3⟩

/-- Claim C10: `watchPostEffect` and `watchSyncEffect` always register with
`flush: 'post'` and `flush: 'sync'` respectively, overriding any `flush` in the
caller's options; in non-dev builds every other caller-supplied option is
discarded (registration equals one with no options at all, apart from flush). -/
theorem post_sync_effect_flush_override
    (dev : Bool) (o : WatchOptions) (inst : Option Instance) :
    (watchPostEffect dev (some o) inst).opts.flush = some Flush.post
    ∧ (watchPostEffect dev (some o) inst).opts.scheduler = some queuePostCb
    ∧ (watchSyncEffect dev (some o) inst).opts.flush = some Flush.sync
    ∧ (watchSyncEffect dev (some o) inst).opts.scheduler = none
    ∧ watchPostEffect false (some o) inst = watchPostEffect false none inst
    ∧ watchSyncEffect false (some o) inst = watchSyncEffect false none inst := by
  cases dev <;> exact ⟨rfl, rfl, rfl, rfl, rfl, rfl⟩

end VueMp
